import Mathlib

/-!
Verification of the database-connection-caching helper of the
Codetivate/imaginify repository (the second fragment of
src/components/shared/Sidebar.tsx, lines 127-170).

The helper is:

  const MONGODB_URL = process.env.MONGODB_URL;            -- line 131
  interface MongooseConnection { conn; promise }          -- lines 134-137
  let cached = global.mongoose;                           -- line 140
  if (!cached) cached = { conn: null, promise: null };    -- lines 143-148
  export const connectToDatabase = async () => {          -- line 151
    if (cached.conn) return cached.conn;                  -- lines 153-154
    if (!MONGODB_URL) throw new Error("Missing MONGODB_URL"); -- line 157
    cached.promise = cached.promise ||
      mongoose.connect(MONGODB_URL,
        { dbName: "Imaginify", bufferCommands: false });  -- lines 160-163
    cached.conn = await cached.promise;                   -- line 166
    return cached.conn;                                   -- line 169
  };

We model the single-threaded cooperative (async/await) execution of any
number of calls to connectToDatabase.  The body of connectToDatabase is
synchronous from entry up to the single suspension point
`await cached.promise`, so a call is a small state machine with three
phases: not yet started, suspended at the await, finished.  A scheduler
interleaves the phase transitions of the different calls arbitrarily.

The external mongoose.connect operation is modelled by instrumentation on
the cache state: a counter of how many times it was invoked and the list
of (connection string, options) arguments it received.  Its returned
promise eventually settles with a fixed outcome (success with a client
handle, or rejection with an error), given by the environment.  Since the
code provably invokes mongoose.connect at most once, a single outcome
value suffices to model the settlement of every promise ever stored in
the cache slot.
-/

namespace Imaginify

/-- Abstract handle to a connected mongoose client (the `Mongoose` value
that the promise returned by mongoose.connect resolves to).  Identity of
handles is all that matters, so a handle is just a tag. -/
structure Mongoose where
  id : Nat
deriving DecidableEq, Repr

/-- A JavaScript Error value, identified by its message. -/
structure JSError where
  message : String
deriving DecidableEq, Repr

/-- The error thrown at line 157: new Error("Missing MONGODB_URL"). -/
def missingUrlError : JSError := { message := "Missing MONGODB_URL" }

/-- The options record passed to mongoose.connect at lines 161-162. -/
structure ConnectOptions where
  dbName : String
  bufferCommands : Bool
deriving DecidableEq, Repr

/-- The literal options record of lines 161-162. -/
def imaginifyOptions : ConnectOptions := { dbName := "Imaginify", bufferCommands := false }

/-- JavaScript truthiness of an optional string: `undefined` and the
empty string are falsy, every other string is truthy.  This is the test
performed by `if (!MONGODB_URL)` at line 157. -/
def jsStringTruthy : Option String → Bool
  | none => false
  | some s => s != ""

/-- The fixed data of one process lifetime: the value captured from
process.env.MONGODB_URL at module load (line 131), and the outcome the
promise returned by mongoose.connect eventually settles with (external
to this module: success with a client handle, or rejection). -/
structure Env where
  MONGODB_URL : Option String
  connectOutcome : Except JSError Mongoose

/-- The process-wide cache record (the MongooseConnection of lines
134-137, initialised at lines 143-148), instrumented with a log of the
mongoose.connect invocations: `connectCount` counts them and
`connectArgs` records the (connection string, options) argument pairs,
in order.  `promise` holds the identifier of the recorded in-flight
attempt (the value of `connectCount` at the moment mongoose.connect was
invoked), or `none` when no attempt is recorded. -/
structure CacheState where
  conn : Option Mongoose
  promise : Option Nat
  connectCount : Nat
  connectArgs : List (String × ConnectOptions)
deriving DecidableEq, Repr

/-- The cache record created at lines 143-148: both fields null, and no
mongoose.connect invocation has happened. -/
def initialCached : CacheState :=
  { conn := none, promise := none, connectCount := 0, connectArgs := [] }

/-- A call to connectToDatabase either returns a client handle normally
or rejects with an error; equality of such results is decidable. -/
instance : DecidableEq (Except JSError Mongoose) := fun a b =>
  match a, b with
  | Except.ok x, Except.ok y =>
    if h : x = y then isTrue (by rw [h]) else isFalse (by intro hc; cases hc; exact h rfl)
  | Except.ok _, Except.error _ => isFalse (by intro hc; cases hc)
  | Except.error _, Except.ok _ => isFalse (by intro hc; cases hc)
  | Except.error x, Except.error y =>
    if h : x = y then isTrue (by rw [h]) else isFalse (by intro hc; cases hc; exact h rfl)

/-- The phase of one call to connectToDatabase: `start` before the call
has run its synchronous prologue, `awaiting pid` suspended at line 166
on the recorded attempt with identifier `pid`, `done r` finished with
result `r` (a normal return or a thrown/rejected error). -/
inductive CallState where
  | start : CallState
  | awaiting : Nat → CallState
  | done : Except JSError Mongoose → CallState
deriving DecidableEq, Repr

/-- The synchronous prologue of connectToDatabase (lines 153-163 and the
entry into the await of line 166), executed atomically by the
single-threaded scheduler.  Returns the updated cache together with the
new phase of the call:
  lines 153-154: if cached.conn is set, return it (no suspension);
  line 157: if MONGODB_URL is falsy, throw "Missing MONGODB_URL";
  lines 160-163: keep the recorded promise if any, otherwise invoke
    mongoose.connect(MONGODB_URL, imaginifyOptions) and record the fresh
    attempt in the slot, synchronously before any suspension;
  line 166: suspend on the recorded attempt. -/
def connectToDatabase (env : Env) (cached : CacheState) : CacheState × CallState :=
  match cached.conn with
  | some conn => (cached, CallState.done (Except.ok conn))
  | none =>
    if jsStringTruthy env.MONGODB_URL then
      match cached.promise with
      | some pid => (cached, CallState.awaiting pid)
      | none =>
        ({ cached with
            promise := some cached.connectCount
            connectCount := cached.connectCount + 1
            connectArgs := cached.connectArgs ++ [(env.MONGODB_URL.getD (""), imaginifyOptions)] },
         CallState.awaiting cached.connectCount)
    else
      (cached, CallState.done (Except.error missingUrlError))

/-- The continuation of connectToDatabase after the await of line 166
resumes, i.e. after the attempt settled with `env.connectOutcome`:
on success, store the resolved client in cached.conn (line 166) and
return it (line 169); on rejection, the await rethrows and the call
rejects with the same error value (no catch in the source). -/
def afterAwait (env : Env) (cached : CacheState) (pid : Nat) : CacheState × CallState :=
  match env.connectOutcome with
  | Except.ok c => ({ cached with conn := some c }, CallState.done (Except.ok c))
  | Except.error e => (cached, CallState.done (Except.error e))

/-- One scheduler step of a single call, from its current phase.  A
finished call does not move. -/
def stepCall (env : Env) (cached : CacheState) : CallState → CacheState × CallState
  | CallState.start => connectToDatabase env cached
  | CallState.awaiting pid => afterAwait env cached pid
  | CallState.done r => (cached, CallState.done r)

/-- A whole-process configuration: the shared cache record and the
phases of the calls (one entry per caller). -/
structure Sys where
  cache : CacheState
  tasks : List CallState
deriving DecidableEq, Repr

/-- The scheduler steps the call at index `i` (out-of-range indices are
no-ops).  This is the only source of interleaving: the prologue and the
post-await continuation each run atomically, exactly as under the
single-threaded JavaScript event loop. -/
def stepSys (env : Env) (s : Sys) (i : Nat) : Sys :=
  match s.tasks[i]? with
  | none => s
  | some t =>
    { cache := (stepCall env s.cache t).1
      tasks := s.tasks.set i (stepCall env s.cache t).2 }

/-- Run a schedule: a list of task indices, stepped in order. -/
def run (env : Env) (sched : List Nat) (s : Sys) : Sys :=
  sched.foldl (stepSys env) s

/-- The initial configuration with `n` callers, before any of them has
run: the cache record of lines 143-148 and every call at its entry. -/
def initSys (n : Nat) : Sys :=
  { cache := initialCached, tasks := List.replicate n CallState.start }

/-- Line 131: the connection string is read from the process environment
once, when the module loads. -/
def loadMongodbUrl (processEnv : String → Option String) : Option String :=
  processEnv ("MONGODB_URL")

/-- A run of the whole module in a world where the process environment
may change over time: `processEnv` is the environment at module load and
`callTimeEnv k` is the environment at scheduler step `k`.  The code
consults only the constant captured at load (line 131); no step of
connectToDatabase reads the environment again, so `callTimeEnv` does not
occur in the semantics. -/
def runWithCallTimeEnv (processEnv : String → Option String)
    (callTimeEnv : Nat → String → Option String)
    (outcome : Except JSError Mongoose) (n : Nat) (sched : List Nat) : Sys :=
  run { MONGODB_URL := loadMongodbUrl processEnv, connectOutcome := outcome } sched (initSys n)

/-! ## The reachability invariant

The invariant relates the cache record, the instrumentation of
mongoose.connect, and the phase of every call.  It is preserved by every
scheduler step from the initial configuration. -/

/-- Invariant on the cache record: either no attempt has been recorded
(slot empty, mongoose.connect never invoked, no client) or exactly one
attempt is recorded, mongoose.connect was invoked exactly once with the
truthy connection string captured at load and the literal options record
of lines 161-162, and the client slot is empty or holds the value the
recorded attempt resolved to. -/
def cacheOk (env : Env) (cc : CacheState) : Prop :=
  (cc.promise = none ∧ cc.connectCount = 0 ∧ cc.connectArgs = [] ∧ cc.conn = none) ∨
  (cc.promise = some 0 ∧ cc.connectCount = 1 ∧
    (∃ u, env.MONGODB_URL = some u ∧ u ≠ "" ∧ cc.connectArgs = [(u, imaginifyOptions)]) ∧
    (cc.conn = none ∨ ∃ c, cc.conn = some c ∧ env.connectOutcome = Except.ok c))

/-- Invariant on the phase of one call: a suspended call awaits the one
recorded attempt; a call that returned a client saw that client stored
in the cache; a call that threw either threw the configuration error
while the connection string was falsy, or rethrew the rejection of the
one recorded attempt. -/
def callOk (env : Env) (cc : CacheState) : CallState → Prop
  | CallState.start => True
  | CallState.awaiting pid => pid = 0 ∧ cc.promise = some 0
  | CallState.done (Except.ok c) => cc.conn = some c
  | CallState.done (Except.error e) =>
      (e = missingUrlError ∧ jsStringTruthy env.MONGODB_URL = false) ∨
      (env.connectOutcome = Except.error e ∧ cc.promise = some 0)

/-- The process-wide invariant. -/
def Inv (env : Env) (s : Sys) : Prop :=
  cacheOk env s.cache ∧ ∀ t ∈ s.tasks, callOk env s.cache t

lemma jsStringTruthy_iff (o : Option String) :
    jsStringTruthy o = true ↔ ∃ u, o = some u ∧ u ≠ "" := by
  cases o with
  | none => simp [jsStringTruthy]
  | some s => simp [jsStringTruthy, bne_iff_ne]

/-! Branch equations for the prologue and the continuation. -/

lemma connectToDatabase_conn_some (env : Env) (cc : CacheState) (c : Mongoose)
    (h : cc.conn = some c) :
    connectToDatabase env cc = (cc, CallState.done (Except.ok c)) := by
  simp [connectToDatabase, h]

lemma connectToDatabase_missing (env : Env) (cc : CacheState)
    (h1 : cc.conn = none) (h2 : jsStringTruthy env.MONGODB_URL = false) :
    connectToDatabase env cc = (cc, CallState.done (Except.error missingUrlError)) := by
  simp [connectToDatabase, h1, h2]

lemma connectToDatabase_join (env : Env) (cc : CacheState) (pid : Nat)
    (h1 : cc.conn = none) (h2 : jsStringTruthy env.MONGODB_URL = true)
    (h3 : cc.promise = some pid) :
    connectToDatabase env cc = (cc, CallState.awaiting pid) := by
  simp [connectToDatabase, h1, h2, h3]

lemma connectToDatabase_fresh (env : Env) (cc : CacheState)
    (h1 : cc.conn = none) (h2 : jsStringTruthy env.MONGODB_URL = true)
    (h3 : cc.promise = none) :
    connectToDatabase env cc =
      ({ cc with
          promise := some cc.connectCount
          connectCount := cc.connectCount + 1
          connectArgs := cc.connectArgs ++ [(env.MONGODB_URL.getD (""), imaginifyOptions)] },
       CallState.awaiting cc.connectCount) := by
  simp [connectToDatabase, h1, h2, h3]

lemma afterAwait_ok (env : Env) (cc : CacheState) (pid : Nat) (c : Mongoose)
    (h : env.connectOutcome = Except.ok c) :
    afterAwait env cc pid = ({ cc with conn := some c }, CallState.done (Except.ok c)) := by
  simp [afterAwait, h]

lemma afterAwait_error (env : Env) (cc : CacheState) (pid : Nat) (e : JSError)
    (h : env.connectOutcome = Except.error e) :
    afterAwait env cc pid = (cc, CallState.done (Except.error e)) := by
  simp [afterAwait, h]

/-- One step of one call preserves the cache invariant and the phase
invariant of every call (the stepped one and the untouched ones), and
never clears a stored client. -/
lemma stepCall_spec (env : Env) (cc : CacheState) (t : CallState)
    (hcache : cacheOk env cc) (ht : callOk env cc t) :
    cacheOk env (stepCall env cc t).1 ∧
    callOk env (stepCall env cc t).1 (stepCall env cc t).2 ∧
    (∀ u, callOk env cc u → callOk env (stepCall env cc t).1 u) ∧
    (∀ c, cc.conn = some c → (stepCall env cc t).1.conn = some c) := by
  cases t with
  | done r =>
    simp only [stepCall]
    exact ⟨hcache, ht, fun u hu => hu, fun c hc => hc⟩
  | start =>
    simp only [stepCall]
    cases hconn : cc.conn with
    | some c =>
      rw [connectToDatabase_conn_some env cc c hconn]
      refine ⟨hcache, hconn, fun u hu => hu, fun c0 h0 => ?_⟩
      show cc.conn = some c0
      rw [hconn]; exact h0
    | none =>
      cases htr : jsStringTruthy env.MONGODB_URL with
      | false =>
        rw [connectToDatabase_missing env cc hconn htr]
        exact ⟨hcache, Or.inl ⟨rfl, htr⟩, fun u hu => hu, fun c0 h0 => Option.noConfusion h0⟩
      | true =>
        cases hp : cc.promise with
        | some pid =>
          have hpid : pid = 0 := by
            rcases hcache with ⟨hpn, _, _, _⟩ | ⟨hps, _, _, _⟩
            · rw [hp] at hpn; cases hpn
            · rw [hp] at hps; injection hps
          rw [connectToDatabase_join env cc pid hconn htr hp]
          refine ⟨hcache, ⟨hpid, ?_⟩, fun u hu => hu, fun c0 h0 => Option.noConfusion h0⟩
          rw [hp, hpid]
        | none =>
          have hcnt : cc.connectCount = 0 ∧ cc.connectArgs = [] := by
            rcases hcache with ⟨_, hc1, hc2, _⟩ | ⟨hps, _, _, _⟩
            · exact ⟨hc1, hc2⟩
            · rw [hp] at hps; cases hps
          obtain ⟨u, hu, hune⟩ := (jsStringTruthy_iff env.MONGODB_URL).mp htr
          rw [connectToDatabase_fresh env cc hconn htr hp]
          refine ⟨?_, ⟨hcnt.1, ?_⟩, ?_, ?_⟩
          · right
            refine ⟨?_, ?_, ⟨u, hu, hune, ?_⟩, Or.inl hconn⟩
            · simp [hcnt.1]
            · simp [hcnt.1]
            · simp [hcnt.2, hu]
          · simp [hcnt.1]
          · intro w hw
            cases w with
            | start => trivial
            | awaiting q =>
              obtain ⟨_, hq⟩ := hw
              rw [hp] at hq; cases hq
            | done r =>
              cases r with
              | ok c0 =>
                have : cc.conn = some c0 := hw
                rw [hconn] at this; cases this
              | error e0 =>
                rcases hw with hw1 | ⟨_, hw2⟩
                · exact Or.inl hw1
                · rw [hp] at hw2; cases hw2
          · intro c0 h0
            exact Option.noConfusion h0
  | awaiting pid =>
    obtain ⟨hpid, hprom⟩ := ht
    have h2 : cc.promise = some 0 ∧ cc.connectCount = 1 ∧
        (∃ u, env.MONGODB_URL = some u ∧ u ≠ "" ∧ cc.connectArgs = [(u, imaginifyOptions)]) ∧
        (cc.conn = none ∨ ∃ c, cc.conn = some c ∧ env.connectOutcome = Except.ok c) := by
      rcases hcache with ⟨hpn, _, _, _⟩ | h2
      · rw [hprom] at hpn; cases hpn
      · exact h2
    obtain ⟨hps, hcnt1, hargsEx, hconnD⟩ := h2
    simp only [stepCall]
    cases ho : env.connectOutcome with
    | error e =>
      rw [afterAwait_error env cc pid e ho]
      exact ⟨hcache, Or.inr ⟨ho, hps⟩, fun u hu => hu, fun c0 h0 => h0⟩
    | ok c =>
      rw [afterAwait_ok env cc pid c ho]
      have hsame : ∀ c0, cc.conn = some c0 → c0 = c := by
        intro c0 h0
        rcases hconnD with hnone | ⟨c1, hc1, ho1⟩
        · rw [h0] at hnone; cases hnone
        · rw [h0] at hc1
          injection hc1 with h01
          rw [ho] at ho1
          injection ho1 with h1c
          rw [h01, ← h1c]
      refine ⟨?_, rfl, ?_, ?_⟩
      · right
        exact ⟨hps, hcnt1, hargsEx, Or.inr ⟨c, rfl, ho⟩⟩
      · intro w hw
        cases w with
        | start => trivial
        | awaiting q => exact hw
        | done r =>
          cases r with
          | ok c0 =>
            have hc0 : cc.conn = some c0 := hw
            have : c0 = c := hsame c0 hc0
            show some c = some c0
            rw [this]
          | error e0 => exact hw
      · intro c0 h0
        show some c = some c0
        rw [hsame c0 h0]

/-- The initial configuration satisfies the invariant. -/
lemma inv_init (env : Env) (n : Nat) : Inv env (initSys n) := by
  constructor
  · exact Or.inl ⟨rfl, rfl, rfl, rfl⟩
  · intro t ht
    have h := List.eq_of_mem_replicate ht
    rw [h]
    trivial

/-- Every scheduler step preserves the invariant. -/
lemma inv_step (env : Env) (s : Sys) (i : Nat) (h : Inv env s) :
    Inv env (stepSys env s i) := by
  obtain ⟨hc, hts⟩ := h
  simp only [stepSys]
  cases hti : s.tasks[i]? with
  | none => exact ⟨hc, hts⟩
  | some t =>
    have hok := hts t (List.getElem?_mem hti)
    obtain ⟨h1, h2, h3, _⟩ := stepCall_spec env s.cache t hc hok
    refine ⟨h1, ?_⟩
    intro u hu
    rcases List.mem_or_eq_of_mem_set hu with hu1 | hu2
    · exact h3 u (hts u hu1)
    · rw [hu2]; exact h2

/-- Every schedule preserves the invariant. -/
lemma inv_run (env : Env) (sched : List Nat) (s : Sys) (h : Inv env s) :
    Inv env (run env sched s) := by
  induction sched generalizing s with
  | nil => exact h
  | cons i rest ih => exact ih (stepSys env s i) (inv_step env s i h)

/-- Every reachable configuration satisfies the invariant. -/
lemma inv_reach (env : Env) (n : Nat) (sched : List Nat) :
    Inv env (run env sched (initSys n)) :=
  inv_run env sched (initSys n) (inv_init env n)

/-- The promise slot, once set, is never cleared and never replaced:
no step changes a non-empty slot. -/
lemma stepCall_promise_mono (env : Env) (cc : CacheState) (t : CallState) (pid : Nat)
    (hp : cc.promise = some pid) : (stepCall env cc t).1.promise = some pid := by
  cases t with
  | done r => exact hp
  | awaiting q =>
    simp only [stepCall]
    cases ho : env.connectOutcome with
    | ok c => rw [afterAwait_ok env cc q c ho]; exact hp
    | error e => rw [afterAwait_error env cc q e ho]; exact hp
  | start =>
    simp only [stepCall]
    cases hconn : cc.conn with
    | some c => rw [connectToDatabase_conn_some env cc c hconn]; exact hp
    | none =>
      cases htr : jsStringTruthy env.MONGODB_URL with
      | false => rw [connectToDatabase_missing env cc hconn htr]; exact hp
      | true => rw [connectToDatabase_join env cc pid hconn htr hp]; exact hp

lemma stepSys_promise_mono (env : Env) (s : Sys) (i : Nat) (pid : Nat)
    (hp : s.cache.promise = some pid) : (stepSys env s i).cache.promise = some pid := by
  simp only [stepSys]
  cases hti : s.tasks[i]? with
  | none => exact hp
  | some t => exact stepCall_promise_mono env s.cache t pid hp

lemma run_promise_mono (env : Env) (sched : List Nat) (s : Sys) (pid : Nat)
    (hp : s.cache.promise = some pid) : (run env sched s).cache.promise = some pid := by
  induction sched generalizing s with
  | nil => exact hp
  | cons i rest ih => exact ih (stepSys env s i) (stepSys_promise_mono env s i pid hp)

/-- From a configuration satisfying the invariant, a stored client is
never replaced by a different one. -/
lemma stepSys_conn_mono (env : Env) (s : Sys) (i : Nat) (c : Mongoose)
    (h : Inv env s) (hc : s.cache.conn = some c) :
    (stepSys env s i).cache.conn = some c := by
  obtain ⟨hcc, hts⟩ := h
  simp only [stepSys]
  cases hti : s.tasks[i]? with
  | none => exact hc
  | some t =>
    obtain ⟨_, _, _, h4⟩ := stepCall_spec env s.cache t hcc (hts t (List.getElem?_mem hti))
    exact h4 c hc

lemma run_conn_mono (env : Env) (sched : List Nat) (s : Sys) (c : Mongoose)
    (h : Inv env s) (hc : s.cache.conn = some c) :
    (run env sched s).cache.conn = some c := by
  induction sched generalizing s with
  | nil => exact hc
  | cons i rest ih =>
    exact ih (stepSys env s i) (inv_step env s i h) (stepSys_conn_mono env s i c h hc)

lemma cacheOk_connectCount_le_one (env : Env) (cc : CacheState)
    (h : cacheOk env cc) : cc.connectCount ≤ 1 := by
  rcases h with ⟨_, hcnt, _, _⟩ | ⟨_, hcnt, _, _⟩ <;> rw [hcnt] <;> omega

/-! ## The claims -/

/-- Claim C1: for every number of callers and every interleaving of
their steps (interleaving happens only at the await suspension point,
the prologue being atomic), mongoose.connect is invoked at most once in
the whole process, and the cache slot, once it records an attempt, is
never replaced by a different attempt under any further scheduling. -/
theorem connect_invoked_at_most_once (env : Env) (n : Nat)
    (sched1 sched2 : List Nat) (pid : Nat)
    (h : (run env sched1 (initSys n)).cache.promise = some pid) :
    (run env sched2 (run env sched1 (initSys n))).cache.connectCount ≤ 1 ∧
    (run env sched2 (run env sched1 (initSys n))).cache.promise = some pid := by
  constructor
  · exact cacheOk_connectCount_le_one env _
      (inv_run env sched2 _ (inv_reach env n sched1)).1
  · exact run_promise_mono env sched2 _ pid h

/-- Witness for C1: two callers, the first one records the attempt, the
schedule then interleaves both; mongoose.connect ran at most once and
the recorded attempt is still attempt 0. -/
theorem connect_invoked_at_most_once_witness :
    (run (Env.mk (some ("mongodb://db")) (Except.ok (Mongoose.mk 3))) [1, 0, 1]
        (run (Env.mk (some ("mongodb://db")) (Except.ok (Mongoose.mk 3))) [0]
          (initSys 2))).cache.connectCount ≤ 1 ∧
    (run (Env.mk (some ("mongodb://db")) (Except.ok (Mongoose.mk 3))) [1, 0, 1]
        (run (Env.mk (some ("mongodb://db")) (Except.ok (Mongoose.mk 3))) [0]
          (initSys 2))).cache.promise = some 0 :=
  connect_invoked_at_most_once (Env.mk (some ("mongodb://db")) (Except.ok (Mongoose.mk 3)))
    2 [0] [1, 0, 1] 0 rfl

/-- Claim C2: once cached.conn holds a client, a call to
connectToDatabase returns exactly that client with the cache record
untouched (so mongoose.connect is not invoked), and this holds for every
environment, in particular one with no MONGODB_URL at all: the
configuration check of line 157 is never reached. -/
theorem cached_fast_path (env : Env) (cc : CacheState) (c : Mongoose)
    (h : cc.conn = some c) :
    connectToDatabase env cc = (cc, CallState.done (Except.ok c)) :=
  connectToDatabase_conn_some env cc c h

/-- Witness for C2: a cache holding client 7, in an environment with no
connection string at all, is returned as is. -/
theorem cached_fast_path_witness :
    connectToDatabase (Env.mk none (Except.error (JSError.mk ("boom"))))
        (CacheState.mk (some (Mongoose.mk 7)) (some 0) 1 []) =
      (CacheState.mk (some (Mongoose.mk 7)) (some 0) 1 [],
       CallState.done (Except.ok (Mongoose.mk 7))) :=
  cached_fast_path (Env.mk none (Except.error (JSError.mk ("boom"))))
    (CacheState.mk (some (Mongoose.mk 7)) (some 0) 1 []) (Mongoose.mk 7) rfl

/-- Claim C3: if the MONGODB_URL configuration value is absent, then in
every reachable configuration mongoose.connect was never invoked and
every finished call failed with the error "Missing MONGODB_URL". -/
theorem missing_url_every_call_fails (env : Env) (n : Nat) (sched : List Nat)
    (i : Nat) (r : Except JSError Mongoose)
    (hurl : env.MONGODB_URL = none)
    (hi : (run env sched (initSys n)).tasks[i]? = some (CallState.done r)) :
    (run env sched (initSys n)).cache.connectCount = 0 ∧
    r = Except.error missingUrlError := by
  obtain ⟨hc, hts⟩ := inv_reach env n sched
  have hr := hts _ (List.getElem?_mem hi)
  rcases hc with ⟨hpn, hcnt, _, hconn⟩ | ⟨_, _, ⟨u, hu, _, _⟩, _⟩
  · refine ⟨hcnt, ?_⟩
    cases r with
    | ok c =>
      have hx : (run env sched (initSys n)).cache.conn = some c := hr
      rw [hconn] at hx; cases hx
    | error e =>
      rcases hr with ⟨he, _⟩ | ⟨_, hp2⟩
      · rw [he]
      · rw [hpn] at hp2; cases hp2
  · rw [hurl] at hu; cases hu

/-- Witness for C3: two callers under an absent MONGODB_URL; the first
finished caller threw the configuration error and mongoose.connect was
never invoked. -/
theorem missing_url_every_call_fails_witness :
    (run (Env.mk none (Except.ok (Mongoose.mk 3))) [0, 1]
        (initSys 2)).cache.connectCount = 0 ∧
    Except.error missingUrlError =
      (Except.error missingUrlError : Except JSError Mongoose) :=
  missing_url_every_call_fails (Env.mk none (Except.ok (Mongoose.mk 3))) 2 [0, 1] 0
    (Except.error missingUrlError) rfl rfl

/-- Claim C4: when the recorded connect attempt rejects, the cache keeps
the rejected attempt in its slot (it is never cleared), cached.conn
stays null, mongoose.connect is never invoked a second time, and every
finished call failed with the rejection error, under every schedule. -/
theorem failed_attempt_never_cleared (env : Env) (n : Nat) (sched : List Nat)
    (i : Nat) (r : Except JSError Mongoose) (u : String) (e : JSError)
    (hu : env.MONGODB_URL = some u) (hne : u ≠ "")
    (ho : env.connectOutcome = Except.error e)
    (hi : (run env sched (initSys n)).tasks[i]? = some (CallState.done r)) :
    (run env sched (initSys n)).cache.promise = some 0 ∧
    (run env sched (initSys n)).cache.conn = none ∧
    (run env sched (initSys n)).cache.connectCount ≤ 1 ∧
    r = Except.error e := by
  obtain ⟨hc, hts⟩ := inv_reach env n sched
  have hr := hts _ (List.getElem?_mem hi)
  have htruthy : jsStringTruthy env.MONGODB_URL = true :=
    (jsStringTruthy_iff env.MONGODB_URL).mpr ⟨u, hu, hne⟩
  have hconnNone : (run env sched (initSys n)).cache.conn = none := by
    rcases hc with ⟨_, _, _, hcn⟩ | ⟨_, _, _, hcd⟩
    · exact hcn
    · rcases hcd with hcn | ⟨c, _, hoc⟩
      · exact hcn
      · rw [ho] at hoc; cases hoc
  have hre : r = Except.error e := by
    cases r with
    | ok c =>
      have hx : (run env sched (initSys n)).cache.conn = some c := hr
      rw [hconnNone] at hx; cases hx
    | error e0 =>
      rcases hr with ⟨_, hfal⟩ | ⟨hoe, _⟩
      · rw [htruthy] at hfal; cases hfal
      · rw [ho] at hoe
        injection hoe with h1
        rw [h1]
  have hprom : (run env sched (initSys n)).cache.promise = some 0 := by
    rw [hre] at hr
    rcases hr with ⟨_, hfal⟩ | ⟨_, hp2⟩
    · rw [htruthy] at hfal; cases hfal
    · exact hp2
  exact ⟨hprom, hconnNone, cacheOk_connectCount_le_one env _ hc, hre⟩

/-- Witness for C4: two callers, the attempt rejects with a transport
error; both steps of both callers run, the cache still records the
rejected attempt, holds no client, mongoose.connect ran at most once,
and the first finished caller failed with the transport error. -/
theorem failed_attempt_never_cleared_witness :
    (run (Env.mk (some ("mongodb://db")) (Except.error (JSError.mk ("network down"))))
        [0, 1, 0, 1] (initSys 2)).cache.promise = some 0 ∧
    (run (Env.mk (some ("mongodb://db")) (Except.error (JSError.mk ("network down"))))
        [0, 1, 0, 1] (initSys 2)).cache.conn = none ∧
    (run (Env.mk (some ("mongodb://db")) (Except.error (JSError.mk ("network down"))))
        [0, 1, 0, 1] (initSys 2)).cache.connectCount ≤ 1 ∧
    (Except.error (JSError.mk ("network down")) : Except JSError Mongoose) =
      Except.error (JSError.mk ("network down")) :=
  failed_attempt_never_cleared
    (Env.mk (some ("mongodb://db")) (Except.error (JSError.mk ("network down"))))
    2 [0, 1, 0, 1] 0 (Except.error (JSError.mk ("network down")))
    "mongodb://db" (JSError.mk ("network down")) rfl (by decide) rfl rfl

/-- Claim C5: when the recorded attempt rejects, the continuation of the
await rethrows exactly the rejection value, unchanged, whatever the
cache state and whichever caller was awaiting, and leaves the cache
untouched. -/
theorem connect_rejection_propagated_verbatim (env : Env) (cc : CacheState)
    (pid : Nat) (e : JSError)
    (h : env.connectOutcome = Except.error e) :
    afterAwait env cc pid = (cc, CallState.done (Except.error e)) :=
  afterAwait_error env cc pid e h

/-- Witness for C5: a caller awaiting the attempt in a concrete cache
state rethrows the concrete rejection error verbatim. -/
theorem connect_rejection_propagated_verbatim_witness :
    afterAwait (Env.mk (some ("mongodb://db")) (Except.error (JSError.mk ("auth failed"))))
        (CacheState.mk none (some 0) 1 [("mongodb://db", imaginifyOptions)]) 0 =
      (CacheState.mk none (some 0) 1 [("mongodb://db", imaginifyOptions)],
       CallState.done (Except.error (JSError.mk ("auth failed")))) :=
  connect_rejection_propagated_verbatim
    (Env.mk (some ("mongodb://db")) (Except.error (JSError.mk ("auth failed"))))
    (CacheState.mk none (some 0) 1 [("mongodb://db", imaginifyOptions)]) 0
    (JSError.mk ("auth failed")) rfl

/-- Claim C6: once cached.conn holds a client, it holds that same client
in every further reachable configuration, under any continuation of the
schedule, including steps of callers that entered before the first
resolution and perform the line 166 assignment after their await. -/
theorem conn_never_reassigned (env : Env) (n : Nat) (sched1 sched2 : List Nat)
    (c : Mongoose)
    (h : (run env sched1 (initSys n)).cache.conn = some c) :
    (run env sched2 (run env sched1 (initSys n))).cache.conn = some c :=
  run_conn_mono env sched2 _ c (inv_reach env n sched1) h

/-- Witness for C6: caller 0 connects and stores client 3; caller 1 then
enters, awaits the same attempt, and its later assignment leaves the
stored client unchanged. -/
theorem conn_never_reassigned_witness :
    (run (Env.mk (some ("mongodb://db")) (Except.ok (Mongoose.mk 3))) [1, 1, 0]
        (run (Env.mk (some ("mongodb://db")) (Except.ok (Mongoose.mk 3))) [0, 0]
          (initSys 2))).cache.conn = some (Mongoose.mk 3) :=
  conn_never_reassigned (Env.mk (some ("mongodb://db")) (Except.ok (Mongoose.mk 3)))
    2 [0, 0] [1, 1, 0] (Mongoose.mk 3) rfl

/-- Claim C7: every invocation of mongoose.connect that ever happens
receives the connection string captured at module load (which is then
necessarily present and non-empty) and the literal options record with
dbName "Imaginify" and bufferCommands false. -/
theorem connect_args_url_and_options (env : Env) (n : Nat) (sched : List Nat)
    (u : String) (opts : ConnectOptions)
    (h : (u, opts) ∈ (run env sched (initSys n)).cache.connectArgs) :
    env.MONGODB_URL = some u ∧ u ≠ "" ∧ opts = imaginifyOptions := by
  obtain ⟨hc, _⟩ := inv_reach env n sched
  rcases hc with ⟨_, _, hargs, _⟩ | ⟨_, _, ⟨u0, hu0, hne0, hargs⟩, _⟩
  · rw [hargs] at h; cases h
  · rw [hargs] at h
    have heq := List.mem_singleton.mp h
    have h1 : u = u0 := congrArg Prod.fst heq
    have h2 : opts = imaginifyOptions := congrArg Prod.snd heq
    rw [h1, h2]
    exact ⟨hu0, hne0, rfl⟩

/-- Witness for C7: after the first caller runs its prologue, the log
holds exactly one invocation, with the loaded connection string and the
Imaginify options. -/
theorem connect_args_url_and_options_witness :
    (Env.mk (some ("mongodb://db")) (Except.ok (Mongoose.mk 3))).MONGODB_URL =
        some ("mongodb://db") ∧
    "mongodb://db" ≠ "" ∧
    imaginifyOptions = imaginifyOptions :=
  connect_args_url_and_options
    (Env.mk (some ("mongodb://db")) (Except.ok (Mongoose.mk 3))) 2 [0]
    "mongodb://db" imaginifyOptions (by decide)

/-- Claim C8: when connectToDatabase throws the configuration error (no
client cached and a falsy MONGODB_URL, covering both an absent and an
empty value), it returns the cache record exactly as it was: neither
cached.conn nor cached.promise is modified by the failed call. -/
theorem missing_url_leaves_cache_unchanged (env : Env) (cc : CacheState)
    (hconn : cc.conn = none) (hurl : jsStringTruthy env.MONGODB_URL = false) :
    connectToDatabase env cc = (cc, CallState.done (Except.error missingUrlError)) :=
  connectToDatabase_missing env cc hconn hurl

/-- Witness for C8: a call from the pristine initial cache record with
an absent MONGODB_URL throws and leaves the record pristine. -/
theorem missing_url_leaves_cache_unchanged_witness :
    connectToDatabase (Env.mk none (Except.ok (Mongoose.mk 3))) initialCached =
      (initialCached, CallState.done (Except.error missingUrlError)) :=
  missing_url_leaves_cache_unchanged (Env.mk none (Except.ok (Mongoose.mk 3)))
    initialCached rfl rfl

/-- Claim C9: in every reachable configuration, a non-null cached.conn
implies a non-null cached.promise (it records attempt 0), and the cached
client is exactly the value that attempt resolved to; a client without a
recorded attempt is unreachable. -/
theorem conn_matches_promise_resolution (env : Env) (n : Nat) (sched : List Nat)
    (c : Mongoose)
    (h : (run env sched (initSys n)).cache.conn = some c) :
    (run env sched (initSys n)).cache.promise = some 0 ∧
    env.connectOutcome = Except.ok c := by
  obtain ⟨hc, _⟩ := inv_reach env n sched
  rcases hc with ⟨_, _, _, hcn⟩ | ⟨hps, _, _, hcd⟩
  · rw [hcn] at h; cases h
  · refine ⟨hps, ?_⟩
    rcases hcd with hcn | ⟨c0, hc0, ho0⟩
    · rw [hcn] at h; cases h
    · rw [hc0] at h
      injection h with h1
      rw [h1] at ho0
      exact ho0

/-- Witness for C9: after one caller connects and resolves, the cache
holds client 3, the slot records attempt 0, and the attempt resolved to
exactly that client. -/
theorem conn_matches_promise_resolution_witness :
    (run (Env.mk (some ("mongodb://db")) (Except.ok (Mongoose.mk 3))) [0, 0]
        (initSys 1)).cache.promise = some 0 ∧
    (Env.mk (some ("mongodb://db")) (Except.ok (Mongoose.mk 3))).connectOutcome =
      Except.ok (Mongoose.mk 3) :=
  conn_matches_promise_resolution
    (Env.mk (some ("mongodb://db")) (Except.ok (Mongoose.mk 3))) 1 [0, 0]
    (Mongoose.mk 3) rfl

/-- Claim C10: the connection string is captured from the process
environment once, at module load (line 131); two runs that agree on the
load-time environment but see arbitrarily different environments at
every later step are identical: a later change neither enables a
previously failing call nor alters the argument of mongoose.connect. -/
theorem config_read_once_at_load (processEnv : String → Option String)
    (t1 t2 : Nat → String → Option String)
    (outcome : Except JSError Mongoose) (n : Nat) (sched : List Nat) :
    runWithCallTimeEnv processEnv t1 outcome n sched =
    runWithCallTimeEnv processEnv t2 outcome n sched := rfl

end Imaginify
